import Mathlib

/-!
# Verification of the seaorm-pool configuration and pool-bootstrap core

This development shallowly embeds the configuration data model
(`src/config.rs`) and the pool-bootstrap procedure (`src/pool.rs`) of the
repository and proves the spec's claims about them.

External collaborators are modelled from their documented behaviour, each
at the granularity the bootstrap code actually exercises:
* the `humantime`/`humantime_serde` crates (duration rendering and parsing
  used by the `acquireTimeout`/`idleTimeout`/`maxLifetime` fields);
* the `serde` derive machinery (camelCase field renaming, per-field
  defaults, `skip_serializing_if`), over a JSON-like value tree;
* the `url` crate (WHATWG URL parsing of `mysql://…` strings,
  `set_username`/`set_password`/`set_path`);
* `sea_orm::ConnectOptions` as a record of the option slots the bootstrap
  writes, with the capability's own connect step left opaque.
-/

namespace SeaormPool

/-! ## Durations

Rust's `std::time::Duration` is a count of whole seconds plus a sub-second
nanosecond part; it is isomorphic to a single total-nanosecond count, which
is how we model it. Every duration this repository constructs goes through
`Duration::from_secs` or through `humantime` parsing. -/

/-- Model of `std::time::Duration`: total nanoseconds. -/
structure Duration where
  totalNanos : Nat
deriving DecidableEq, Repr

/-- `Duration::from_secs`. -/
def Duration.from_secs (n : Nat) : Duration := ⟨n * 1000000000⟩

/-- `Duration::default()` (zero duration), used by the bootstrap when it
disables slow-statement logging. -/
def Duration.default : Duration := ⟨0⟩

/-! ### Decimal rendering of naturals

Rust renders integers (`u64` display inside `humantime`, `u16` ports,
`u32` connection counts) in plain decimal. We give a fuel-indexed
structurally recursive renderer so concrete instances reduce by `rfl`. -/

/-- The ASCII digit character for a value `d < 10`. -/
def digitChar (d : Nat) : Char := Char.ofNat (48 + d)

/-- Big-endian decimal digits of `n`, given enough fuel (`n < fuel`). -/
def natCharsAux : Nat → Nat → List Char
  | 0, _ => []
  | fuel + 1, n =>
    if n < 10 then [digitChar n]
    else natCharsAux fuel (n / 10) ++ [digitChar (n % 10)]

/-- Big-endian decimal digits of `n`, as rendered by Rust's integer
`Display` (no sign, no leading zeros, `0` for zero). -/
def natChars (n : Nat) : List Char := natCharsAux (n + 1) n

/-! ### humantime formatting

`humantime::format_duration` decomposes the seconds into calendar units
with the fixed constants year = 31557600 s and month = 2630016 s, and the
sub-second nanoseconds into `ms`/`us`/`ns`, omitting zero components; it
writes `1year` but `2years` (same for months and days), and the literal
`"0s"` for the zero duration. This is the string `humantime_serde` emits
when the configuration structures are serialized. -/

/-- One formatted component: `[]` when the value is zero, else the single
token of the value and its unit name. -/
def timeItem (v : Nat) (unit : String) : List (Nat × String) :=
  if v = 0 then [] else [(v, unit)]

/-- A pluralized component (`year`/`years` style), as `humantime` writes
for years, months and days. -/
def timeItemPlural (v : Nat) (unit : String) : List (Nat × String) :=
  if v = 0 then [] else [(v, if 1 < v then unit ++ "s" else unit)]

/-- The ordered nonzero components of `humantime::format_duration` for a
total-nanosecond count. -/
def formatTokens (total : Nat) : List (Nat × String) :=
  let secs := total / 1000000000
  let nanos := total % 1000000000
  let years := secs / 31557600
  let ydays := secs % 31557600
  let months := ydays / 2630016
  let mdays := ydays % 2630016
  let days := mdays / 86400
  let daySecs := mdays % 86400
  let hours := daySecs / 3600
  let minutes := daySecs % 3600 / 60
  let seconds := daySecs % 60
  let millis := nanos / 1000000
  let micros := nanos % 1000000 / 1000
  let nanosec := nanos % 1000
  timeItemPlural years "year" ++ timeItemPlural months "month" ++
  timeItemPlural days "day" ++ timeItem hours "h" ++ timeItem minutes "m" ++
  timeItem seconds "s" ++ timeItem millis "ms" ++ timeItem micros "us" ++
  timeItem nanosec "ns"

/-- Render one `value ++ unit` token, e.g. `30s` or `2years`. -/
def renderToken (t : Nat × String) : List Char := natChars t.1 ++ t.2.data

/-- Join rendered tokens with single spaces, as `humantime` does. -/
def renderTokens : List (Nat × String) → List Char
  | [] => []
  | [t] => renderToken t
  | t :: ts => renderToken t ++ ' ' :: renderTokens ts

/-- Model of `humantime::format_duration` rendered to a string. -/
def formatDuration (d : Duration) : String :=
  if d.totalNanos = 0 then "0s" else ⟨renderTokens (formatTokens d.totalNanos)⟩

/-! ### humantime parsing

`humantime::parse_duration` reads a sequence of `<decimal><unit>` items,
separated by whitespace, and sums their values; an unknown unit, a unit
with no preceding number, a trailing number with no unit, or an empty
input is an error. We model it as a structurally recursive character
machine whose state is the accumulated total, the number currently being
read, and the unit characters currently being read. -/

/-- Nanoseconds denoted by one unit name, per the `humantime` unit table
(year = 31557600 s, month = 2630016 s); `none` for an unknown unit. -/
def unitNanos : String → Option Nat
  | "nanos" | "nsec" | "ns" => some 1
  | "usec" | "us" => some 1000
  | "millis" | "msec" | "ms" => some 1000000
  | "seconds" | "second" | "secs" | "sec" | "s" => some 1000000000
  | "minutes" | "minute" | "mins" | "min" | "m" => some 60000000000
  | "hours" | "hour" | "hrs" | "hr" | "h" => some 3600000000000
  | "days" | "day" | "d" => some 86400000000000
  | "weeks" | "week" | "w" => some 604800000000000
  | "months" | "month" | "M" => some 2630016000000000
  | "years" | "year" | "y" => some 31557600000000000
  | _ => none

/-- Commit one parsed `<number><unit>` item onto the running total. -/
def commitItem (total n : Nat) (unit : List Char) : Option Nat :=
  match unitNanos (String.mk unit) with
  | none => none
  | some mult => some (total + n * mult)

/-- The parsing machine: input characters, accumulated total, the number
being read (`none` between items), and the unit characters read so far. -/
def parseDurStep : List Char → Nat → Option Nat → List Char → Option Nat
  | [], total, none, _ => some total
  | [], total, some n, unit =>
    if unit = [] then none else commitItem total n unit
  | c :: cs, total, cur, unit =>
    if c.isDigit then
      match cur with
      | none => parseDurStep cs total (some (c.toNat - 48)) []
      | some n =>
        if unit = [] then parseDurStep cs total (some (n * 10 + (c.toNat - 48))) []
        else
          match commitItem total n unit with
          | none => none
          | some total2 => parseDurStep cs total2 (some (c.toNat - 48)) []
    else if c.isAlpha then
      match cur with
      | none => none
      | some _ => parseDurStep cs total cur (unit ++ [c])
    else if c = ' ' then
      match cur with
      | none => parseDurStep cs total none []
      | some n =>
        if unit = [] then none
        else
          match commitItem total n unit with
          | none => none
          | some total2 => parseDurStep cs total2 none []
    else none

/-- Model of `humantime::parse_duration` (empty input is an error). -/
def parseDuration (s : String) : Option Duration :=
  if s.data = [] then none
  else (parseDurStep s.data 0 none []).map Duration.mk

/-! ## Configuration data model (`src/config.rs`)

The integer fields are `u32`/`u16`/`usize` in the source; no arithmetic is
ever performed on them, so they are embedded as `Nat`. -/

/-- `PoolOptions` (`src/config.rs` lines 229-298): tunables of the
database connection pool. -/
structure PoolOptions where
  max_connections : Nat
  min_connections : Nat
  acquire_timeout : Duration
  idle_timeout : Duration
  max_lifetime : Duration
  is_lazy : Bool
  statement_cache_capacity : Nat
deriving DecidableEq, Repr

/-- `default_max_connections` (`src/config.rs` line 186). -/
def default_max_connections : Nat := 10

/-- `default_min_connections` (`src/config.rs` line 189). -/
def default_min_connections : Nat := 1

/-- `default_acquire_timeout` (`src/config.rs` line 192). -/
def default_acquire_timeout : Duration := Duration.from_secs 30

/-- `default_idle_timeout` (`src/config.rs` line 195). -/
def default_idle_timeout : Duration := Duration.from_secs 300

/-- `default_max_lifetime` (`src/config.rs` line 198). -/
def default_max_lifetime : Duration := Duration.from_secs 1800

/-- `default_is_lazy` (`src/config.rs` line 201). -/
def default_is_lazy : Bool := true

/-- `default_statement_cache_capacity` (`src/config.rs` line 204). -/
def default_statement_cache_capacity : Nat := 100

/-- `impl Default for PoolOptions` (`src/config.rs` lines 300-313). -/
def PoolOptions.default : PoolOptions where
  max_connections := default_max_connections
  min_connections := default_min_connections
  acquire_timeout := default_acquire_timeout
  idle_timeout := default_idle_timeout
  max_lifetime := default_max_lifetime
  is_lazy := default_is_lazy
  statement_cache_capacity := default_statement_cache_capacity

/-- `DatabaseConfig` (`src/config.rs` lines 98-131). -/
structure DatabaseConfig where
  host : String
  port : Option Nat
  username : String
  password : String
  database_name : String
  pool_options : PoolOptions
  ssl_ca : Option String
deriving DecidableEq, Repr

/-- `DatabaseConfig::get_address` (`src/config.rs` lines 157-163):
`"{host}:{port}"` when a port is present, the host alone otherwise. -/
def DatabaseConfig.get_address (config : DatabaseConfig) : String :=
  match config.port with
  | some port => config.host ++ ":" ++ toString port
  | none => config.host

/-- `impl Default for DatabaseConfig` (`src/config.rs` lines 170-182). -/
def DatabaseConfig.default : DatabaseConfig where
  host := "localhost"
  port := none
  username := ""
  password := ""
  database_name := ""
  pool_options := PoolOptions.default
  ssl_ca := none

/-- `AppConfig` (`src/config.rs` lines 70-73): the root configuration. -/
structure AppConfig where
  database : DatabaseConfig
deriving DecidableEq, Repr

/-! ## The serde boundary

The structures derive `Serialize`/`Deserialize` with
`#[serde(rename_all = "camelCase")]`; `port` and `ssl_ca` carry
`#[serde(skip_serializing_if = "Option::is_none")]`, `pool_options`
carries `#[serde(default)]`, and every `PoolOptions` field carries
`#[serde(default = "...")]`, the duration fields additionally
`#[serde(with = "humantime_serde")]`. We model the parsed document as a
JSON-like value tree (the text layer of `serde_json`/`toml` is the
external loader) and write out the field-level behaviour the derive
produces. -/

/-- A structured document value: the fragment of JSON/TOML values this
configuration uses. -/
inductive Json where
  | str (s : String)
  | num (n : Nat)
  | bool (b : Bool)
  | obj (fields : List (String × Json))
deriving Repr

/-- First binding of a key in an object's field list. -/
def Json.find : List (String × Json) → String → Option Json
  | [], _ => none
  | (k, v) :: fs, key => if k = key then some v else Json.find fs key

/-- Deserialize a required string field. -/
def getStr (fs : List (String × Json)) (key : String) : Except String String :=
  match Json.find fs key with
  | some (.str s) => .ok s
  | some _ => .error ("invalid type for field " ++ key)
  | none => .error ("missing field " ++ key)

/-- Deserialize an optional string field (absent resolves to `none`). -/
def getOptStr (fs : List (String × Json)) (key : String) :
    Except String (Option String) :=
  match Json.find fs key with
  | some (.str s) => .ok (some s)
  | some _ => .error ("invalid type for field " ++ key)
  | none => .ok none

/-- Deserialize an optional integer field (absent resolves to `none`). -/
def getOptNum (fs : List (String × Json)) (key : String) :
    Except String (Option Nat) :=
  match Json.find fs key with
  | some (.num n) => .ok (some n)
  | some _ => .error ("invalid type for field " ++ key)
  | none => .ok none

/-- Deserialize an integer field with a `#[serde(default = "...")]`. -/
def getNumD (fs : List (String × Json)) (key : String) (dflt : Nat) :
    Except String Nat :=
  match Json.find fs key with
  | some (.num n) => .ok n
  | some _ => .error ("invalid type for field " ++ key)
  | none => .ok dflt

/-- Deserialize a boolean field with a `#[serde(default = "...")]`. -/
def getBoolD (fs : List (String × Json)) (key : String) (dflt : Bool) :
    Except String Bool :=
  match Json.find fs key with
  | some (.bool b) => .ok b
  | some _ => .error ("invalid type for field " ++ key)
  | none => .ok dflt

/-- Deserialize a `humantime_serde` duration field with a
`#[serde(default = "...")]`. -/
def getDurD (fs : List (String × Json)) (key : String) (dflt : Duration) :
    Except String Duration :=
  match Json.find fs key with
  | some (.str s) =>
    match parseDuration s with
    | some d => .ok d
    | none => .error ("invalid duration for field " ++ key)
  | some _ => .error ("invalid type for field " ++ key)
  | none => .ok dflt

/-- The serde `Deserialize` impl derived for `PoolOptions`: camelCase
keys, every field falling back to its `default_*` helper when absent;
the first field error propagates. -/
def PoolOptions.fromJson : Json → Except String PoolOptions
  | .obj fs =>
    match getNumD fs "maxConnections" default_max_connections with
    | .error e => .error e
    | .ok max_connections =>
    match getNumD fs "minConnections" default_min_connections with
    | .error e => .error e
    | .ok min_connections =>
    match getDurD fs "acquireTimeout" default_acquire_timeout with
    | .error e => .error e
    | .ok acquire_timeout =>
    match getDurD fs "idleTimeout" default_idle_timeout with
    | .error e => .error e
    | .ok idle_timeout =>
    match getDurD fs "maxLifetime" default_max_lifetime with
    | .error e => .error e
    | .ok max_lifetime =>
    match getBoolD fs "isLazy" default_is_lazy with
    | .error e => .error e
    | .ok is_lazy =>
    match getNumD fs "statementCacheCapacity"
        default_statement_cache_capacity with
    | .error e => .error e
    | .ok statement_cache_capacity =>
      .ok ⟨max_connections, min_connections, acquire_timeout, idle_timeout,
        max_lifetime, is_lazy, statement_cache_capacity⟩
  | _ => .error "invalid type: PoolOptions must be a map"

/-- The serde `Serialize` impl derived for `PoolOptions`: declaration
order, camelCase keys, durations through `humantime_serde`. -/
def PoolOptions.toJson (p : PoolOptions) : Json :=
  .obj [("maxConnections", .num p.max_connections),
        ("minConnections", .num p.min_connections),
        ("acquireTimeout", .str (formatDuration p.acquire_timeout)),
        ("idleTimeout", .str (formatDuration p.idle_timeout)),
        ("maxLifetime", .str (formatDuration p.max_lifetime)),
        ("isLazy", .bool p.is_lazy),
        ("statementCacheCapacity", .num p.statement_cache_capacity)]

/-- The serde `Deserialize` impl derived for `DatabaseConfig`:
`host`, `username`, `password`, `databaseName` are required (missing
means a parse error, never a substituted default); `port` and `sslCa`
are optional; a missing `poolOptions` section resolves to
`PoolOptions::default()` via `#[serde(default)]`. -/
def DatabaseConfig.fromJson : Json → Except String DatabaseConfig
  | .obj fs =>
    match getStr fs "host" with
    | .error e => .error e
    | .ok host =>
    match getOptNum fs "port" with
    | .error e => .error e
    | .ok port =>
    match getStr fs "username" with
    | .error e => .error e
    | .ok username =>
    match getStr fs "password" with
    | .error e => .error e
    | .ok password =>
    match getStr fs "databaseName" with
    | .error e => .error e
    | .ok database_name =>
    match (match Json.find fs "poolOptions" with
           | some v => PoolOptions.fromJson v
           | none => .ok PoolOptions.default) with
    | .error e => .error e
    | .ok pool_options =>
    match getOptStr fs "sslCa" with
    | .error e => .error e
    | .ok ssl_ca =>
      .ok ⟨host, port, username, password, database_name, pool_options,
        ssl_ca⟩
  | _ => .error "invalid type: DatabaseConfig must be a map"

/-- The serde `Serialize` impl derived for `DatabaseConfig`: declaration
order, camelCase keys, `port` and `sslCa` omitted when `None` by
`skip_serializing_if = "Option::is_none"`. -/
def DatabaseConfig.toJson (c : DatabaseConfig) : Json :=
  .obj ((match c.port with
         | some p => [("host", Json.str c.host), ("port", Json.num p)]
         | none => [("host", Json.str c.host)]) ++
        [("username", .str c.username),
         ("password", .str c.password),
         ("databaseName", .str c.database_name),
         ("poolOptions", c.pool_options.toJson)] ++
        (match c.ssl_ca with
         | some ca => [("sslCa", Json.str ca)]
         | none => []))

/-- The serde `Deserialize` impl derived for `AppConfig`: the single
required `database` section. -/
def AppConfig.fromJson : Json → Except String AppConfig
  | .obj fs =>
    match Json.find fs "database" with
    | none => .error "missing field database"
    | some v =>
      match DatabaseConfig.fromJson v with
      | .error e => .error e
      | .ok database => .ok ⟨database⟩
  | _ => .error "invalid type: AppConfig must be a map"

/-- The serde `Serialize` impl derived for `AppConfig`. -/
def AppConfig.toJson (c : AppConfig) : Json :=
  .obj [("database", c.database.toJson)]

/-! ## The `url` crate boundary (`Url::parse`, setters)

`src/pool.rs` parses `"mysql://" ++ get_address(config)` and then calls
`set_username`, `set_password` and `set_path` on the result. We model the
WHATWG parse of such a string for the non-special `mysql` scheme. Two
deliberate abstractions, neither of which any theorem below inspects:
the textual validation of a bracketed IPv6 literal is skipped (the
literal is accepted opaquely), and stored components are kept verbatim
where the crate would store them percent-encoded (the bootstrap
immediately overwrites username, password and path anyway). -/

/-- The `url::ParseError` variants this input shape can produce. -/
inductive UrlParseError where
  | emptyHost
  | invalidPort
  | invalidDomainCharacter
  | invalidIpv6
deriving DecidableEq, Repr

/-- `Display` of `url::ParseError`, as captured by
`DbErr::Custom(err.to_string())` in `create_connection_pool`. -/
def UrlParseError.toString : UrlParseError → String
  | .emptyHost => "empty host"
  | .invalidPort => "invalid port number"
  | .invalidDomainCharacter => "invalid domain character"
  | .invalidIpv6 => "invalid IPv6 address"

/-- A parsed URL: the components the `url` crate keeps for a
`mysql://…` URL. -/
structure Url where
  scheme : String
  username : String
  password : Option String
  host : String
  port : Option Nat
  path : String
  query : Option String
  fragment : Option String
deriving DecidableEq, Repr

/-- WHATWG input preprocessing, restricted to the part after the clean
literal scheme: trailing C0-control/space code points are trimmed and
all tab/newline characters removed. -/
def cleanAddress (address : String) : List Char :=
  ((address.data.reverse.dropWhile (fun c => c.toNat ≤ 32)).reverse).filter
    (fun c => !(c = '\t' || c = '\n' || c = '\r'))

/-- The WHATWG forbidden host code points (for an opaque host). -/
def forbiddenHostChar (c : Char) : Bool :=
  c = Char.ofNat 0 || c = '\t' || c = '\n' || c = '\r' || c = ' ' || c = '#' ||
  c = '/' || c = ':' || c = '<' || c = '>' || c = '?' || c = '@' || c = '[' ||
  c = '\\' || c = ']' || c = '^' || c = '|'

/-- Split a character list at the last occurrence of `sep`, when any. -/
def splitLastAt (sep : Char) (cs : List Char) : Option (List Char × List Char) :=
  if cs.contains sep then
    let r := cs.reverse
    some (((r.dropWhile (· ≠ sep)).drop 1).reverse, (r.takeWhile (· ≠ sep)).reverse)
  else none

/-- Decimal value of a big-endian digit-character list. -/
def digitsVal (cs : List Char) : Nat :=
  cs.foldl (fun a c => a * 10 + (c.toNat - 48)) 0

/-- Parse the port part of an authority: empty means no port; otherwise
it must be all decimal digits and at most 65535. -/
def parsePort (cs : List Char) : Except UrlParseError (Option Nat) :=
  if cs = [] then .ok none
  else if cs.all (·.isDigit) then
    if digitsVal cs ≤ 65535 then .ok (some (digitsVal cs))
    else .error .invalidPort
  else .error .invalidPort

/-- Split a host-port segment into the host serialization and the port;
an opaque host fails on forbidden host code points, a bracketed IPv6
literal must be closed. -/
def parseHostPort : List Char → Except UrlParseError (String × Option Nat)
  | '[' :: rest =>
    if rest.contains ']' then
      let inside := rest.takeWhile (· ≠ ']')
      let after := (rest.dropWhile (· ≠ ']')).drop 1
      match after with
      | [] => .ok (String.mk ('[' :: inside ++ [']']), none)
      | ':' :: portCs =>
        (parsePort portCs).map (fun p => (String.mk ('[' :: inside ++ [']']), p))
      | _ => .error .invalidPort
    else .error .invalidIpv6
  | cs =>
    let hostCs := cs.takeWhile (· ≠ ':')
    if hostCs.any forbiddenHostChar then .error .invalidDomainCharacter
    else
      match cs.dropWhile (· ≠ ':') with
      | ':' :: portCs => (parsePort portCs).map (fun p => (String.mk hostCs, p))
      | _ => .ok (String.mk hostCs, none)

/-- Split what follows the authority into path, query and fragment. -/
def parsePathQueryFragment (rest : List Char) :
    String × Option String × Option String :=
  let beforeFrag := rest.takeWhile (· ≠ '#')
  let fragment :=
    match rest.dropWhile (· ≠ '#') with
    | '#' :: f => some (String.mk f)
    | _ => none
  let path := beforeFrag.takeWhile (· ≠ '?')
  let query :=
    match beforeFrag.dropWhile (· ≠ '?') with
    | '?' :: q => some (String.mk q)
    | _ => none
  (String.mk path, query, fragment)

/-- Model of `Url::parse("mysql://" ++ address)`: authority up to the
first `/`, `?` or `#`; userinfo before the last `@` (an `@` followed by
an empty host-port is the `empty host` failure); host and port split at
the (bracket-aware) colon. -/
def parseMysqlUrl (address : String) : Except UrlParseError Url :=
  let cs := cleanAddress address
  let authority := cs.takeWhile (fun c => !(c = '/' || c = '?' || c = '#'))
  let rest := cs.dropWhile (fun c => !(c = '/' || c = '?' || c = '#'))
  let uihp :=
    match splitLastAt '@' authority with
    | some x => (some x.1, x.2)
    | none => (none, authority)
  if uihp.1.isSome && uihp.2.isEmpty then .error .emptyHost
  else
    match parseHostPort uihp.2 with
    | .error e => .error e
    | .ok hp =>
      let up :=
        match uihp.1 with
        | none => ("", (none : Option String))
        | some ui =>
          (String.mk (ui.takeWhile (· ≠ ':')),
           match ui.dropWhile (· ≠ ':') with
           | ':' :: pw => some (String.mk pw)
           | _ => none)
      let pqf := parsePathQueryFragment rest
      .ok { scheme := "mysql", username := up.1, password := up.2,
            host := hp.1, port := hp.2, path := pqf.1, query := pqf.2.1,
            fragment := pqf.2.2 }

/-- `Url::set_username`: fails (returns `Err(())`) exactly when the URL
has no usable host (empty host serialization) or a `file` scheme; any
username value itself is accepted (percent-encoded by the crate). -/
def Url.set_username (url : Url) (username : String) : Option Url :=
  if url.host = "" ∨ url.scheme = "file" then none
  else some { url with username := username }

/-- `Url::set_password`: same failure condition as `set_username`; any
password value itself is accepted (percent-encoded by the crate). -/
def Url.set_password (url : Url) (password : Option String) : Option Url :=
  if url.host = "" ∨ url.scheme = "file" then none
  else some { url with password := password }

/-- `Url::set_path`: never fails; a leading slash is added for a URL
with an authority. -/
def Url.set_path (url : Url) (path : String) : Url :=
  { url with path := if path = "" || path.startsWith "/" then path
                     else "/" ++ path }

/-! ## The sea-orm boundary (`ConnectOptions`) and the bootstrap
(`src/pool.rs`) -/

/-- `tracing::log::LevelFilter`. -/
inductive LevelFilter where
  | off
  | error
  | warn
  | info
  | debug
  | trace
deriving DecidableEq, Repr

/-- `sea_orm::ConnectOptions`: the option slots the bootstrap reads or
writes, with their `ConnectOptions::new` defaults. Slots the bootstrap
never touches and no claim mentions (schema search path, sqlcipher key,
test-before-acquire) are omitted. The `ssl_ca` slot is modelled from the
spec: it stands for the pooling capability's TLS/CA configuration
(spec §4.3 step 5, §9); the released `ConnectOptions` has no such
setter, which is why the wiring at `src/pool.rs` lines 105-109 is
commented out, and nothing in the bootstrap ever writes it. -/
structure ConnectOptions where
  url : Url
  max_connections : Option Nat := none
  min_connections : Option Nat := none
  connect_timeout : Option Duration := none
  idle_timeout : Option Duration := none
  acquire_timeout : Option Duration := none
  max_lifetime : Option Duration := none
  sqlx_logging : Bool := true
  sqlx_logging_level : LevelFilter := .info
  sqlx_slow_statements_logging_level : LevelFilter := .off
  sqlx_slow_statements_logging_threshold : Duration := Duration.from_secs 1
  connect_lazy : Bool := false
  ssl_ca : Option String := none
deriving DecidableEq, Repr

/-- `ConnectOptions::new(url)`. -/
def ConnectOptions.new (url : Url) : ConnectOptions := { url }

/-- `ConnectOptions::get_max_connections`. -/
def ConnectOptions.get_max_connections (o : ConnectOptions) : Option Nat :=
  o.max_connections

/-- `ConnectOptions::get_min_connections`. -/
def ConnectOptions.get_min_connections (o : ConnectOptions) : Option Nat :=
  o.min_connections

/-- `ConnectOptions::get_acquire_timeout`. -/
def ConnectOptions.get_acquire_timeout (o : ConnectOptions) : Option Duration :=
  o.acquire_timeout

/-- `ConnectOptions::get_idle_timeout`. -/
def ConnectOptions.get_idle_timeout (o : ConnectOptions) : Option Duration :=
  o.idle_timeout

/-- `ConnectOptions::get_max_lifetime`. -/
def ConnectOptions.get_max_lifetime (o : ConnectOptions) : Option Duration :=
  o.max_lifetime

/-- Outcome of the URL construction and option population in
`create_connection_pool` (`src/pool.rs` lines 84-109): the options value
handed to `Database::connect`, or the early `DbErr::Custom` return from
a URL parse failure, or a panic from one of the two `.unwrap()` calls on
`set_username`/`set_password`. -/
inductive BuildResult where
  | ok (options : ConnectOptions)
  | err (e : UrlParseError)
  | panicked
deriving DecidableEq, Repr

/-- The URL construction and option population of
`create_connection_pool` (`src/pool.rs` lines 76-109). The unused local
`database_url_str` (lines 76-82) binds a formatted string that is never
read and is omitted. The commented-out block at lines 105-109 — the
`ssl_ca` wiring — contributes nothing: the `ssl_ca` slot of the result
keeps its default. -/
def buildConnectOptions (config : DatabaseConfig) : BuildResult :=
  match parseMysqlUrl config.get_address with
  | .error e => .err e
  | .ok url0 =>
    match url0.set_username config.username with
    | none => .panicked
    | some url1 =>
      match url1.set_password (some config.password) with
      | none => .panicked
      | some url2 =>
        let database_url := url2.set_path config.database_name
        .ok { ConnectOptions.new database_url with
              max_connections := some config.pool_options.max_connections
              min_connections := some config.pool_options.min_connections
              acquire_timeout := some config.pool_options.acquire_timeout
              idle_timeout := some config.pool_options.idle_timeout
              max_lifetime := some config.pool_options.max_lifetime
              sqlx_logging_level := .debug
              sqlx_slow_statements_logging_level := .off
              sqlx_slow_statements_logging_threshold := Duration.default }

/-- `sea_orm::DbErr`, restricted to what the bootstrap produces: the
`Custom` wrapping of a URL parse error, or an error propagated from
`Database::connect` (carried opaquely). -/
inductive DbErr where
  | custom (msg : String)
  | conn (msg : String)
deriving DecidableEq, Repr

/-- Result of `create_connection_pool`: a pool handle (opaque), a typed
error, or a panic. -/
inductive PoolResult where
  | ok
  | err (e : DbErr)
  | panicked
deriving DecidableEq, Repr

/-- `create_connection_pool` (`src/pool.rs` lines 71-131). The external
`Database::connect` step is an oracle: `connectErr = none` means the
capability established the pool, `some e` that it failed with error
display `e`, which the code propagates after logging. -/
def create_connection_pool (config : DatabaseConfig)
    (connectErr : Option String) : PoolResult :=
  match buildConnectOptions config with
  | .err e => .err (.custom e.toString)
  | .panicked => .panicked
  | .ok _ =>
    match connectErr with
    | some e => .err (.conn e)
    | none => .ok

/-- Rust `Debug` rendering of an `Option<u32>` value. -/
def optNatDebug : Option Nat → String
  | some n => "Some(" ++ toString n ++ ")"
  | none => "None"

/-- Fractional part of a `Duration` `Debug` rendering: `x` as `w` digits
with leading zeros, trailing zeros removed, after a dot; empty when
zero. -/
def fracPart (x : Nat) (w : Nat) : String :=
  if x = 0 then ""
  else
    let padded := List.replicate (w - (natChars x).length) '0' ++ natChars x
    String.mk ('.' :: (padded.reverse.dropWhile (· = '0')).reverse)

/-- Rust `Debug` rendering of a `Duration`: the largest fitting unit
with a trimmed fraction, e.g. `30s`, `1.5s`, `250ms`. -/
def durationDebug (d : Duration) : String :=
  let secs := d.totalNanos / 1000000000
  let nanos := d.totalNanos % 1000000000
  if 0 < secs then toString secs ++ fracPart nanos 9 ++ "s"
  else if 1000000 ≤ nanos then
    toString (nanos / 1000000) ++ fracPart (nanos % 1000000) 6 ++ "ms"
  else if 1000 ≤ nanos then
    toString (nanos / 1000) ++ fracPart (nanos % 1000) 3 ++ "µs"
  else toString nanos ++ "ns"

/-- Rust `Debug` rendering of an `Option<Duration>` value. -/
def optDurDebug : Option Duration → String
  | some d => "Some(" ++ durationDebug d ++ ")"
  | none => "None"

/-- `log_pool_settings` (`src/pool.rs` lines 141-148): the diagnostic
reporter, one line per resolved pool parameter, reading only the
connection-count and timeout getters of the options. -/
def log_pool_settings (options : ConnectOptions) : List String :=
  ["Pool Settings:",
   "-> Max connections: " ++ optNatDebug options.get_max_connections,
   "-> Min connections: " ++ optNatDebug options.get_min_connections,
   "-> Acquire timeout: " ++ optDurDebug options.get_acquire_timeout,
   "-> Idle timeout: " ++ optDurDebug options.get_idle_timeout,
   "-> Max lifetime: " ++ optDurDebug options.get_max_lifetime]

/-- The diagnostic output of one `create_connection_pool` run: every
`info!`/`error!` line the function emits, in order, as a function of the
configuration and of the external connect outcome. An early structured
error return or a panic cuts the sequence short. -/
def bootstrapLogs (config : DatabaseConfig) (connectErr : Option String) :
    List String :=
  "Initializing database connection pool..." ::
  match buildConnectOptions config with
  | .err _ => []
  | .panicked => []
  | .ok options =>
    log_pool_settings options ++
    ["Connecting to the database... Lazy mode: " ++
      toString config.pool_options.is_lazy] ++
    match connectErr with
    | some e =>
      ["Failed to connect to database server at '" ++ config.get_address ++
        "': " ++ e]
    | none => ["Database connection pool initialized successfully."]

/-! ## Statement infrastructure -/

/-- A unit name the duration parser accepts: nonempty, alphabetic, in the
unit table. -/
def validUnit (u : String) : Prop :=
  u.data ≠ [] ∧ (∀ c ∈ u.data, c.isAlpha = true) ∧ (unitNanos u).isSome = true

instance (u : String) : Decidable (validUnit u) := by
  unfold validUnit; infer_instance

/-- Every token of a formatted duration has a valid unit. -/
def tokensOK (ts : List (Nat × String)) : Prop := ∀ t ∈ ts, validUnit t.2

/-- Total nanoseconds denoted by a token list. -/
def tokenSum (ts : List (Nat × String)) : Nat :=
  (ts.map (fun t => t.1 * (unitNanos t.2).getD 0)).sum

/-- A document entry that is present or omitted. -/
def optEntry (key : String) (o : Option Json) : List (String × Json) :=
  match o with
  | some v => [(key, v)]
  | none => []

/-- An arbitrary subset of the `poolOptions` fields of a document:
`none` means the key is omitted. -/
structure PartialPoolOptions where
  max_connections : Option Nat
  min_connections : Option Nat
  acquire_timeout : Option Duration
  idle_timeout : Option Duration
  max_lifetime : Option Duration
  is_lazy : Option Bool
  statement_cache_capacity : Option Nat

/-- The `poolOptions` document section that writes exactly the present
fields of a subset, durations in their humantime text form. -/
def PartialPoolOptions.renderFields (p : PartialPoolOptions) :
    List (String × Json) :=
  optEntry "maxConnections" (p.max_connections.map Json.num) ++
    (optEntry "minConnections" (p.min_connections.map Json.num) ++
      (optEntry "acquireTimeout"
          (p.acquire_timeout.map fun d => Json.str (formatDuration d)) ++
        (optEntry "idleTimeout"
            (p.idle_timeout.map fun d => Json.str (formatDuration d)) ++
          (optEntry "maxLifetime"
              (p.max_lifetime.map fun d => Json.str (formatDuration d)) ++
            (optEntry "isLazy" (p.is_lazy.map Json.bool) ++
              (optEntry "statementCacheCapacity"
                  (p.statement_cache_capacity.map Json.num) ++ []))))))

/-- Credential replacement on a build outcome: what distinguishes two
bootstraps whose configurations differ only in username and password. -/
def BuildResult.withCreds (r : BuildResult) (u p : String) : BuildResult :=
  match r with
  | .ok opts =>
    .ok { opts with url :=
            { opts.url with username := u, password := some p } }
  | r => r

/-- The options of a successful build outcome, a placeholder otherwise. -/
def okOptionsD (r : BuildResult) : ConnectOptions :=
  match r with
  | .ok opts => opts
  | _ => ConnectOptions.new
      ⟨"mysql", "", none, "placeholder", none, "", none, none⟩

/-- A concrete configuration that sets a CA bundle path. -/
def sslConfig : DatabaseConfig where
  host := "db.example.com"
  port := some 3306
  username := "app"
  password := "secret"
  database_name := "appdb"
  pool_options := PoolOptions.default
  ssl_ca := some "/etc/ssl/certs/ca.pem"

/-- A concrete configuration left in the default lazy mode. -/
def lazyConfig : DatabaseConfig where
  host := "pool.internal"
  port := none
  username := "svc"
  password := "svcpw"
  database_name := "svcdb"
  pool_options := PoolOptions.default
  ssl_ca := none

/-- A concrete configuration whose empty host makes the two `.unwrap()`
calls of the bootstrap panic. -/
def emptyHostConfig : DatabaseConfig where
  host := ""
  port := none
  username := "u"
  password := "p"
  database_name := "d"
  pool_options := PoolOptions.default
  ssl_ca := none

/-- A second empty-host configuration, for the unwrap-safety claim. -/
def unwrapPanicConfig : DatabaseConfig where
  host := ""
  port := none
  username := "root"
  password := "hunter2"
  database_name := "orders"
  pool_options := PoolOptions.default
  ssl_ca := none

/-- A concrete configuration with a nonempty host, on which the
bootstrap does not panic. -/
def unwrapSafeConfig : DatabaseConfig where
  host := "db.internal"
  port := some 3307
  username := "reader"
  password := "readerpw"
  database_name := "reports"
  pool_options := PoolOptions.default
  ssl_ca := none

/-- The resolution the spec promises for a subset of fields: a specified
field takes exactly the given value, an omitted field its documented
default. -/
def PartialPoolOptions.resolve (p : PartialPoolOptions) : PoolOptions where
  max_connections := p.max_connections.getD default_max_connections
  min_connections := p.min_connections.getD default_min_connections
  acquire_timeout := p.acquire_timeout.getD default_acquire_timeout
  idle_timeout := p.idle_timeout.getD default_idle_timeout
  max_lifetime := p.max_lifetime.getD default_max_lifetime
  is_lazy := p.is_lazy.getD default_is_lazy
  statement_cache_capacity :=
    p.statement_cache_capacity.getD default_statement_cache_capacity

/-! # Theorems

## Correctness of the duration codec -/

theorem isAlpha_not_digit {c : Char} (h : c.isAlpha = true) :
    c.isDigit = false := by
  have e65 : (UInt32.toBitVec 65).toNat = 65 := rfl
  have e90 : (UInt32.toBitVec 90).toNat = 90 := rfl
  have e97 : (UInt32.toBitVec 97).toNat = 97 := rfl
  have e122 : (UInt32.toBitVec 122).toNat = 122 := rfl
  have e57 : (UInt32.toBitVec 57).toNat = 57 := rfl
  simp only [Char.isAlpha, Char.isUpper, Char.isLower, Bool.or_eq_true,
    Bool.and_eq_true, decide_eq_true_eq, ge_iff_le, UInt32.le_def,
    BitVec.le_def, e65, e90, e97, e122] at h
  simp only [Char.isDigit, ge_iff_le, UInt32.le_def, BitVec.le_def]
  rcases h with ⟨h1, h2⟩ | ⟨h1, h2⟩ <;>
  · apply Bool.and_eq_false_iff.mpr
    right
    simp only [decide_eq_false_iff_not, e57]
    omega

theorem digitChar_isDigit {d : Nat} (h : d < 10) :
    (digitChar d).isDigit = true := by
  interval_cases d <;> decide

theorem digitChar_sub48 {d : Nat} (h : d < 10) :
    (digitChar d).toNat - 48 = d := by
  interval_cases d <;> decide

theorem natCharsAux_digits {fuel n : Nat} :
    ∀ c ∈ natCharsAux fuel n, c.isDigit = true := by
  induction fuel generalizing n with
  | zero => intro c hc; simp [natCharsAux] at hc
  | succ fuel ih =>
    intro c hc
    simp only [natCharsAux] at hc
    by_cases h : n < 10
    · rw [if_pos h] at hc
      simp only [List.mem_singleton] at hc
      subst hc
      exact digitChar_isDigit h
    · rw [if_neg h] at hc
      rcases List.mem_append.mp hc with h2 | h2
      · exact ih c h2
      · simp only [List.mem_singleton] at h2
        subst h2
        exact digitChar_isDigit (Nat.mod_lt _ (by omega))

theorem natCharsAux_foldl {fuel n : Nat} (h : n < fuel) (a : Nat) :
    (natCharsAux fuel n).foldl (fun x c => x * 10 + (c.toNat - 48)) a
      = a * 10 ^ (natCharsAux fuel n).length + n := by
  induction fuel generalizing n a with
  | zero => omega
  | succ fuel ih =>
    by_cases h10 : n < 10
    · simp only [natCharsAux, if_pos h10, List.foldl_cons, List.foldl_nil,
        List.length_singleton, pow_one, digitChar_sub48 h10]
    · have hdiv : n / 10 < fuel :=
        lt_of_lt_of_le (Nat.div_lt_self (by omega) (by omega)) (by omega)
      simp only [natCharsAux, if_neg h10, List.foldl_append, List.foldl_cons,
        List.foldl_nil, List.length_append, List.length_singleton]
      rw [ih hdiv a, digitChar_sub48 (Nat.mod_lt _ (by omega)), pow_succ]
      generalize 10 ^ (natCharsAux fuel (n / 10)).length = P
      have hmod : n / 10 * 10 + n % 10 = n := by omega
      conv_rhs => rw [← hmod]
      ring

theorem natChars_digits {n : Nat} : ∀ c ∈ natChars n, c.isDigit = true :=
  natCharsAux_digits

theorem natChars_foldl (n : Nat) :
    (natChars n).foldl (fun x c => x * 10 + (c.toNat - 48)) 0 = n := by
  rw [natChars, natCharsAux_foldl (Nat.lt_succ_self n)]
  simp

theorem natChars_ne_nil (n : Nat) : natChars n ≠ [] := by
  rw [natChars]
  show natCharsAux (n + 1) n ≠ []
  by_cases h : n < 10 <;> simp [natCharsAux, h]

theorem parseDurStep_digits (ds : List Char)
    (hds : ∀ c ∈ ds, c.isDigit = true) :
    ∀ (rest : List Char) (total acc : Nat),
      parseDurStep (ds ++ rest) total (some acc) [] =
        parseDurStep rest total
          (some (ds.foldl (fun x c => x * 10 + (c.toNat - 48)) acc)) [] := by
  induction ds with
  | nil => intro rest total acc; simp
  | cons c ds ih =>
    intro rest total acc
    have hc : c.isDigit = true := hds c (List.mem_cons_self c ds)
    simp only [List.cons_append, parseDurStep, hc, if_true, List.foldl_cons,
      reduceIte]
    exact ih (fun x hx => hds x (List.mem_cons_of_mem _ hx)) rest total _

theorem parseDurStep_number (ds : List Char) (hne : ds ≠ [])
    (hds : ∀ c ∈ ds, c.isDigit = true) (rest : List Char) (total : Nat) :
    parseDurStep (ds ++ rest) total none [] =
      parseDurStep rest total
        (some (ds.foldl (fun x c => x * 10 + (c.toNat - 48)) 0)) [] := by
  match ds, hne with
  | c :: ds, _ =>
    have hc : c.isDigit = true := hds c (List.mem_cons_self c ds)
    simp only [List.cons_append, parseDurStep, hc, if_true, List.foldl_cons,
      List.append_eq]
    rw [parseDurStep_digits ds (fun x hx => hds x (List.mem_cons_of_mem _ hx))]
    simp

theorem parseDurStep_unit (us : List Char)
    (hus : ∀ c ∈ us, c.isAlpha = true) :
    ∀ (rest : List Char) (total n : Nat) (u0 : List Char),
      parseDurStep (us ++ rest) total (some n) u0 =
        parseDurStep rest total (some n) (u0 ++ us) := by
  induction us with
  | nil => intro rest total n u0; simp
  | cons c us ih =>
    intro rest total n u0
    have hc : c.isAlpha = true := hus c (List.mem_cons_self c us)
    have hcd : c.isDigit = false := isAlpha_not_digit hc
    simp only [List.cons_append, parseDurStep, hcd, hc, Bool.false_eq_true,
      if_false, if_true, List.append_eq]
    rw [ih (fun x hx => hus x (List.mem_cons_of_mem _ hx)) rest total n
      (u0 ++ [c])]
    simp

theorem parseDurStep_renderTokens (ts : List (Nat × String)) (h : tokensOK ts) :
    ∀ total : Nat,
      parseDurStep (renderTokens ts) total none [] =
        some (total + tokenSum ts) := by
  induction ts with
  | nil => intro total; simp [renderTokens, parseDurStep, tokenSum]
  | cons t ts ih =>
    intro total
    obtain ⟨hne, halpha, hsome⟩ := h t (List.mem_cons_self t ts)
    obtain ⟨mult, hmult⟩ := Option.isSome_iff_exists.mp hsome
    have hstr : String.mk t.2.data = t.2 := rfl
    cases ts with
    | nil =>
      show parseDurStep (renderToken t) total none [] = _
      rw [renderToken,
        parseDurStep_number (natChars t.1) (natChars_ne_nil t.1)
          (fun x hx => natChars_digits x hx) t.2.data total,
        natChars_foldl]
      have h2 := parseDurStep_unit t.2.data halpha [] total t.1 []
      simp only [List.append_nil, List.nil_append] at h2
      rw [h2]
      simp only [parseDurStep, if_neg hne, commitItem, hstr, hmult,
        tokenSum, List.map_cons, List.map_nil, List.sum_cons, List.sum_nil]
      simp
    | cons t2 ts2 =>
      have hr : renderTokens (t :: t2 :: ts2) =
          renderToken t ++ ' ' :: renderTokens (t2 :: ts2) := rfl
      rw [hr, renderToken, List.append_assoc,
        parseDurStep_number (natChars t.1) (natChars_ne_nil t.1)
          (fun x hx => natChars_digits x hx) _ total,
        natChars_foldl,
        parseDurStep_unit t.2.data halpha (' ' :: renderTokens (t2 :: ts2))
          total t.1 []]
      have hsd : (' ').isDigit = false := by decide
      have hsa : (' ').isAlpha = false := by decide
      simp only [List.nil_append, parseDurStep, hsd, hsa, Bool.false_eq_true,
        if_false, reduceIte, if_neg hne, commitItem, hstr, hmult]
      rw [ih (fun x hx => h x (List.mem_cons_of_mem _ hx))]
      have hts : tokenSum (t :: t2 :: ts2) =
          t.1 * mult + tokenSum (t2 :: ts2) := by
        simp [tokenSum, hmult]
      rw [hts, Nat.add_assoc]

theorem tokensOK_append {ts1 ts2 : List (Nat × String)} (h1 : tokensOK ts1)
    (h2 : tokensOK ts2) : tokensOK (ts1 ++ ts2) :=
  fun t ht => (List.mem_append.mp ht).elim (h1 t) (h2 t)

theorem tokensOK_timeItem {v : Nat} {u : String} (hu : validUnit u) :
    tokensOK (timeItem v u) := by
  intro t ht
  by_cases hv : v = 0
  · simp [timeItem, hv] at ht
  · simp only [timeItem, if_neg hv, List.mem_singleton] at ht
    subst ht
    exact hu

theorem tokensOK_timeItemPlural {v : Nat} {u : String} (h1 : validUnit u)
    (h2 : validUnit (u ++ "s")) : tokensOK (timeItemPlural v u) := by
  intro t ht
  by_cases hv : v = 0
  · simp [timeItemPlural, hv] at ht
  · simp only [timeItemPlural, if_neg hv, List.mem_singleton] at ht
    subst ht
    by_cases h1v : 1 < v
    · simpa [h1v] using h2
    · simpa [h1v] using h1

theorem tokenSum_append (ts1 ts2 : List (Nat × String)) :
    tokenSum (ts1 ++ ts2) = tokenSum ts1 + tokenSum ts2 := by
  simp [tokenSum]

theorem tokenSum_timeItem (v : Nat) (u : String) :
    tokenSum (timeItem v u) = v * (unitNanos u).getD 0 := by
  by_cases hv : v = 0 <;> simp [timeItem, tokenSum, hv]

theorem tokenSum_timeItemPlural (v : Nat) (u : String)
    (h : unitNanos (u ++ "s") = unitNanos u) :
    tokenSum (timeItemPlural v u) = v * (unitNanos u).getD 0 := by
  by_cases hv : v = 0
  · simp [timeItemPlural, tokenSum, hv]
  · by_cases h1 : 1 < v <;> simp [timeItemPlural, tokenSum, hv, h1, h]

theorem tokenSum_formatTokens (n : Nat) : tokenSum (formatTokens n) = n := by
  simp only [formatTokens, tokenSum_append,
    tokenSum_timeItemPlural _ "year" (by decide),
    tokenSum_timeItemPlural _ "month" (by decide),
    tokenSum_timeItemPlural _ "day" (by decide),
    tokenSum_timeItem]
  show n / 1000000000 / 31557600 * 31557600000000000 +
      n / 1000000000 % 31557600 / 2630016 * 2630016000000000 +
      n / 1000000000 % 31557600 % 2630016 / 86400 * 86400000000000 +
      n / 1000000000 % 31557600 % 2630016 % 86400 / 3600 * 3600000000000 +
      n / 1000000000 % 31557600 % 2630016 % 86400 % 3600 / 60 * 60000000000 +
      n / 1000000000 % 31557600 % 2630016 % 86400 % 60 * 1000000000 +
      n % 1000000000 / 1000000 * 1000000 +
      n % 1000000000 % 1000000 / 1000 * 1000 +
      n % 1000000000 % 1000 * 1 = n
  omega

theorem tokensOK_formatTokens (n : Nat) : tokensOK (formatTokens n) := by
  simp only [formatTokens]
  repeat
    first
    | exact tokensOK_timeItemPlural (by decide) (by decide)
    | exact tokensOK_timeItem (by decide)
    | apply tokensOK_append

theorem renderTokens_ne_nil {ts : List (Nat × String)} (h : ts ≠ []) :
    renderTokens ts ≠ [] := by
  match ts, h with
  | [t], _ =>
    show renderToken t ≠ []
    rw [renderToken]
    simp [natChars_ne_nil]
  | t :: t2 :: ts, _ =>
    show renderToken t ++ ' ' :: renderTokens (t2 :: ts) ≠ []
    simp [renderToken, natChars_ne_nil]

theorem formatTokens_ne_nil {n : Nat} (hn : n ≠ 0) : formatTokens n ≠ [] := by
  intro h0
  have hsum := tokenSum_formatTokens n
  rw [h0] at hsum
  simp [tokenSum] at hsum
  omega

/-- The duration codec round-trips: parsing a formatted duration returns
exactly the duration, for every duration value. -/
theorem parseDuration_formatDuration (d : Duration) :
    parseDuration (formatDuration d) = some d := by
  obtain ⟨n⟩ := d
  by_cases hn : n = 0
  · subst hn; decide
  · have hrd : renderTokens (formatTokens n) ≠ [] :=
      renderTokens_ne_nil (formatTokens_ne_nil hn)
    show parseDuration (formatDuration ⟨n⟩) = _
    rw [formatDuration]
    simp only [if_neg hn]
    rw [parseDuration]
    have hdata : (String.mk (renderTokens (formatTokens n))).data =
        renderTokens (formatTokens n) := rfl
    rw [hdata, if_neg hrd,
      parseDurStep_renderTokens (formatTokens n) (tokensOK_formatTokens n) 0]
    simp [tokenSum_formatTokens]

/-! ## The serde boundary: lookups, defaults, required fields -/

theorem find_optEntry_ne {k key : String} (h : key ≠ k) (o : Option Json)
    (rest : List (String × Json)) :
    Json.find (optEntry key o ++ rest) k = Json.find rest k := by
  cases o <;> simp [optEntry, Json.find, h]

theorem find_optEntry_self (key : String) (o : Option Json)
    (rest : List (String × Json)) (hrest : Json.find rest key = none) :
    Json.find (optEntry key o ++ rest) key = o := by
  cases o <;> simp [optEntry, Json.find, hrest]

theorem find_render_max (p : PartialPoolOptions) :
    Json.find p.renderFields "maxConnections" =
      p.max_connections.map Json.num := by
  rw [PartialPoolOptions.renderFields, find_optEntry_self]
  rw [find_optEntry_ne (by decide), find_optEntry_ne (by decide),
    find_optEntry_ne (by decide), find_optEntry_ne (by decide),
    find_optEntry_ne (by decide), find_optEntry_ne (by decide)]
  rfl

theorem find_render_min (p : PartialPoolOptions) :
    Json.find p.renderFields "minConnections" =
      p.min_connections.map Json.num := by
  rw [PartialPoolOptions.renderFields, find_optEntry_ne (by decide),
    find_optEntry_self]
  rw [find_optEntry_ne (by decide), find_optEntry_ne (by decide),
    find_optEntry_ne (by decide), find_optEntry_ne (by decide),
    find_optEntry_ne (by decide)]
  rfl

theorem find_render_acquire (p : PartialPoolOptions) :
    Json.find p.renderFields "acquireTimeout" =
      p.acquire_timeout.map (fun d => Json.str (formatDuration d)) := by
  rw [PartialPoolOptions.renderFields, find_optEntry_ne (by decide),
    find_optEntry_ne (by decide), find_optEntry_self]
  rw [find_optEntry_ne (by decide), find_optEntry_ne (by decide),
    find_optEntry_ne (by decide), find_optEntry_ne (by decide)]
  rfl

theorem find_render_idle (p : PartialPoolOptions) :
    Json.find p.renderFields "idleTimeout" =
      p.idle_timeout.map (fun d => Json.str (formatDuration d)) := by
  rw [PartialPoolOptions.renderFields, find_optEntry_ne (by decide),
    find_optEntry_ne (by decide), find_optEntry_ne (by decide),
    find_optEntry_self]
  rw [find_optEntry_ne (by decide), find_optEntry_ne (by decide),
    find_optEntry_ne (by decide)]
  rfl

theorem find_render_lifetime (p : PartialPoolOptions) :
    Json.find p.renderFields "maxLifetime" =
      p.max_lifetime.map (fun d => Json.str (formatDuration d)) := by
  rw [PartialPoolOptions.renderFields, find_optEntry_ne (by decide),
    find_optEntry_ne (by decide), find_optEntry_ne (by decide),
    find_optEntry_ne (by decide), find_optEntry_self]
  rw [find_optEntry_ne (by decide), find_optEntry_ne (by decide)]
  rfl

theorem find_render_lazy (p : PartialPoolOptions) :
    Json.find p.renderFields "isLazy" = p.is_lazy.map Json.bool := by
  rw [PartialPoolOptions.renderFields, find_optEntry_ne (by decide),
    find_optEntry_ne (by decide), find_optEntry_ne (by decide),
    find_optEntry_ne (by decide), find_optEntry_ne (by decide),
    find_optEntry_self]
  rw [find_optEntry_ne (by decide)]
  rfl

theorem find_render_stmt (p : PartialPoolOptions) :
    Json.find p.renderFields "statementCacheCapacity" =
      p.statement_cache_capacity.map Json.num := by
  rw [PartialPoolOptions.renderFields, find_optEntry_ne (by decide),
    find_optEntry_ne (by decide), find_optEntry_ne (by decide),
    find_optEntry_ne (by decide), find_optEntry_ne (by decide),
    find_optEntry_ne (by decide), find_optEntry_self]
  rfl

theorem getNumD_map {fs : List (String × Json)} {key : String}
    {o : Option Nat} (h : Json.find fs key = o.map Json.num) (dflt : Nat) :
    getNumD fs key dflt = .ok (o.getD dflt) := by
  cases o <;> simp [getNumD, h]

theorem getBoolD_map {fs : List (String × Json)} {key : String}
    {o : Option Bool} (h : Json.find fs key = o.map Json.bool) (dflt : Bool) :
    getBoolD fs key dflt = .ok (o.getD dflt) := by
  cases o <;> simp [getBoolD, h]

theorem getDurD_map {fs : List (String × Json)} {key : String}
    {o : Option Duration}
    (h : Json.find fs key = o.map fun d => Json.str (formatDuration d))
    (dflt : Duration) : getDurD fs key dflt = .ok (o.getD dflt) := by
  cases o <;> simp [getDurD, h, parseDuration_formatDuration]

theorem getStr_ok_isSome {fs : List (String × Json)} {key s : String}
    (h : getStr fs key = .ok s) : (Json.find fs key).isSome = true := by
  cases hf : Json.find fs key with
  | none => rw [getStr, hf] at h; simp at h
  | some v => simp

theorem databaseconfig_ok_required {fs : List (String × Json)}
    {c : DatabaseConfig} (h : DatabaseConfig.fromJson (.obj fs) = .ok c) :
    (Json.find fs "host").isSome = true ∧
      (Json.find fs "username").isSome = true ∧
      (Json.find fs "password").isSome = true ∧
      (Json.find fs "databaseName").isSome = true := by
  simp only [DatabaseConfig.fromJson] at h
  cases h1 : getStr fs "host" with
  | error e => rw [h1] at h; simp at h
  | ok host =>
  rw [h1] at h
  cases h2 : getOptNum fs "port" with
  | error e => rw [h2] at h; simp at h
  | ok port =>
  rw [h2] at h
  cases h3 : getStr fs "username" with
  | error e => rw [h3] at h; simp at h
  | ok username =>
  cases h4 : getStr fs "password" with
  | error e => rw [h3, h4] at h; simp at h
  | ok password =>
  cases h5 : getStr fs "databaseName" with
  | error e => rw [h3, h4, h5] at h; simp at h
  | ok dbname =>
  exact ⟨getStr_ok_isSome h1, getStr_ok_isSome h3, getStr_ok_isSome h4,
    getStr_ok_isSome h5⟩

/-- C4: `get_address` is a total pure function of the configuration: for
every host string, every port value and arbitrary remaining fields, it
returns `"{host}:{port}"` when the port is present and the host alone
when it is absent. -/
theorem get_address_spec (host username password dbname : String)
    (p : Nat) (po : PoolOptions) (ca : Option String) :
    DatabaseConfig.get_address
        ⟨host, some p, username, password, dbname, po, ca⟩ =
        host ++ ":" ++ toString p ∧
      DatabaseConfig.get_address
        ⟨host, none, username, password, dbname, po, ca⟩ = host :=
  ⟨rfl, rfl⟩

/-- C5: deserializing any subset of `poolOptions` fields gives each
specified field exactly its given value and each omitted field its
documented default, with no cross-field interference; a document without
a `poolOptions` section resolves to `PoolOptions::default()`; and those
defaults are exactly (10, 1, 30s, 300s, 1800s, true, 100). -/
theorem pool_options_defaults_spec (p : PartialPoolOptions) :
    PoolOptions.fromJson (.obj p.renderFields) = .ok p.resolve ∧
      (∀ host username password dbname : String,
        DatabaseConfig.fromJson (.obj [("host", .str host),
            ("username", .str username), ("password", .str password),
            ("databaseName", .str dbname)]) =
          .ok ⟨host, none, username, password, dbname, PoolOptions.default,
            none⟩) ∧
      PoolOptions.default = ⟨10, 1, Duration.from_secs 30,
        Duration.from_secs 300, Duration.from_secs 1800, true, 100⟩ := by
  refine ⟨?_, ?_, rfl⟩
  · simp only [PoolOptions.fromJson]
    rw [getNumD_map (find_render_max p), getNumD_map (find_render_min p),
      getDurD_map (find_render_acquire p), getDurD_map (find_render_idle p),
      getDurD_map (find_render_lifetime p), getBoolD_map (find_render_lazy p),
      getNumD_map (find_render_stmt p)]
    rfl
  · intro host username password dbname
    rfl

/-- C6: a document whose `database` table misses any of the required
fields `host`, `username`, `password` or `databaseName` fails
deserialization with a parse error; no default is substituted. -/
theorem required_field_missing_fails (fs : List (String × Json))
    (h : Json.find fs "host" = none ∨ Json.find fs "username" = none ∨
      Json.find fs "password" = none ∨ Json.find fs "databaseName" = none) :
    ∃ e, DatabaseConfig.fromJson (.obj fs) = .error e := by
  cases hr : DatabaseConfig.fromJson (.obj fs) with
  | error e => exact ⟨e, rfl⟩
  | ok c =>
    obtain ⟨h1, h2, h3, h4⟩ := databaseconfig_ok_required hr
    rcases h with h | h | h | h
    · rw [h] at h1; simp at h1
    · rw [h] at h2; simp at h2
    · rw [h] at h3; simp at h3
    · rw [h] at h4; simp at h4

/-- Witness for C6 at a concrete document: a `database` table carrying
only a host fails to deserialize. -/
theorem required_field_missing_fails_witness :
    ∃ e, DatabaseConfig.fromJson
      (.obj [("host", .str "db.example.com")]) = .error e :=
  required_field_missing_fails _ (Or.inr (Or.inl rfl))

/-- C7: serializing any constructed `AppConfig` and deserializing the
result returns the original value, field for field. -/
theorem appconfig_roundtrip (c : AppConfig) :
    AppConfig.fromJson (AppConfig.toJson c) = .ok c := by
  obtain ⟨⟨host, port, username, password, dbname, po, ca⟩⟩ := c
  obtain ⟨mc, mn, aq, it, ml, lz, sc⟩ := po
  cases port <;> cases ca <;>
    simp [AppConfig.toJson, AppConfig.fromJson, DatabaseConfig.toJson,
      DatabaseConfig.fromJson, PoolOptions.toJson, PoolOptions.fromJson,
      Json.find, getStr, getOptNum, getOptStr, getNumD, getBoolD, getDurD,
      parseDuration_formatDuration]

/-! ## The bootstrap procedure -/

theorem buildConnectOptions_cred (c : DatabaseConfig) (u p : String) :
    buildConnectOptions { c with username := u, password := p } =
      (buildConnectOptions c).withCreds u p := by
  have hget : DatabaseConfig.get_address
      { c with username := u, password := p } = c.get_address := rfl
  simp only [buildConnectOptions, hget]
  cases hp : parseMysqlUrl c.get_address with
  | error e => rfl
  | ok url0 =>
    simp only [Url.set_username, Url.set_password]
    by_cases hh : url0.host = "" ∨ url0.scheme = "file"
    · simp [hh, BuildResult.withCreds]
    · simp [hh, BuildResult.withCreds, Url.set_path, ConnectOptions.new]

theorem parseMysqlUrl_ok_scheme {a : String} {url : Url}
    (h : parseMysqlUrl a = .ok url) : url.scheme = "mysql" := by
  simp only [parseMysqlUrl] at h
  split at h
  · simp at h
  · split at h
    · simp at h
    · injection h with h2
      subst h2
      rfl

/-- C1 (refuted by the code; the spec flags this as a defect): the
connection options a bootstrap hands to the pooling capability always
carry an empty TLS/CA slot — the `ssl_ca` wiring of
`create_connection_pool` is commented out — even though `sslConfig`
does set a CA path. -/
theorem ssl_ca_not_routed :
    (∀ (c : DatabaseConfig) (opts : ConnectOptions),
        buildConnectOptions c = .ok opts → opts.ssl_ca = none) ∧
      sslConfig.ssl_ca = some "/etc/ssl/certs/ca.pem" := by
  refine ⟨?_, rfl⟩
  intro c opts h
  simp only [buildConnectOptions] at h
  split at h
  · simp at h
  · split at h
    · simp at h
    · split at h
      · simp at h
      · injection h with h2
        subst h2
        rfl

/-- Witness for C1: on the concrete CA-carrying configuration the build
succeeds and its options hold no CA. -/
theorem ssl_ca_not_routed_witness :
    buildConnectOptions sslConfig =
        .ok (okOptionsD (buildConnectOptions sslConfig)) ∧
      (okOptionsD (buildConnectOptions sslConfig)).ssl_ca = none :=
  ⟨rfl, ssl_ca_not_routed.1 sslConfig _ rfl⟩

/-- C2 (refuted by the code): `is_lazy` is never threaded into the
connection options — the options are identical whatever its value, and
the lazy flag handed to the pooling capability always holds the external
default `false`; the field is read only by a log line. -/
theorem is_lazy_not_threaded :
    (∀ (c : DatabaseConfig) (b : Bool),
        buildConnectOptions
            { c with pool_options :=
                { c.pool_options with is_lazy := b } } =
          buildConnectOptions c) ∧
      ∀ (c : DatabaseConfig) (opts : ConnectOptions),
        buildConnectOptions c = .ok opts → opts.connect_lazy = false := by
  refine ⟨fun c b => rfl, ?_⟩
  intro c opts h
  simp only [buildConnectOptions] at h
  split at h
  · simp at h
  · split at h
    · simp at h
    · split at h
      · simp at h
      · injection h with h2
        subst h2
        rfl

/-- Witness for C2: on the concrete lazy-mode configuration the options
are unchanged by flipping `is_lazy` and carry an eager lazy flag. -/
theorem is_lazy_not_threaded_witness :
    buildConnectOptions
        { lazyConfig with pool_options :=
            { lazyConfig.pool_options with is_lazy := false } } =
        buildConnectOptions lazyConfig ∧
      buildConnectOptions lazyConfig =
        .ok (okOptionsD (buildConnectOptions lazyConfig)) ∧
      (okOptionsD (buildConnectOptions lazyConfig)).connect_lazy = false :=
  ⟨is_lazy_not_threaded.1 lazyConfig false, rfl,
    is_lazy_not_threaded.2 lazyConfig _ rfl⟩

/-- C3 (refuted by the code): on a configuration whose derived URL has
no usable host, the URL parse itself succeeds and
`create_connection_pool` panics on the `set_username` `.unwrap()`
instead of returning a structured error — whatever the network oracle
would have answered, so the panic precedes any connect attempt. (No
username or password content can cause the failure: the url crate
percent-encodes arbitrary credentials.) -/
theorem invalid_endpoint_unwrap_panics :
    (∀ e : Option String,
        create_connection_pool emptyHostConfig e = .panicked) ∧
      parseMysqlUrl emptyHostConfig.get_address =
        .ok ⟨"mysql", "", none, "", none, "", none, none⟩ :=
  ⟨fun _ => rfl, rfl⟩

/-- C8: the diagnostic output of a bootstrap run — every `info!` and
`error!` line, for any fixed external connect outcome — is identical for
two configurations differing only in username and password: credentials
never reach the logs. -/
theorem bootstrapLogs_cred_free (c : DatabaseConfig) (u1 p1 u2 p2 : String)
    (e : Option String) :
    bootstrapLogs { c with username := u1, password := p1 } e =
      bootstrapLogs { c with username := u2, password := p2 } e := by
  simp only [bootstrapLogs, buildConnectOptions_cred]
  cases buildConnectOptions c with
  | ok opts => rfl
  | err e0 => rfl
  | panicked => rfl

/-- C9: `statement_cache_capacity` has no effect on the bootstrap: the
connection options are identical for any two configurations differing
only in that field. -/
theorem statement_cache_no_effect (c : DatabaseConfig) (x y : Nat) :
    buildConnectOptions
        { c with pool_options :=
            { c.pool_options with statement_cache_capacity := x } } =
      buildConnectOptions
        { c with pool_options :=
            { c.pool_options with statement_cache_capacity := y } } := rfl

/-- Counterexample to C10 as stated: for the empty-host configuration
the URL parse succeeds, yet the bootstrap panics on the `.unwrap()` of
`set_username`. -/
theorem unwrap_panic_counterexample :
    parseMysqlUrl unwrapPanicConfig.get_address =
        .ok ⟨"mysql", "", none, "", none, "", none, none⟩ ∧
      buildConnectOptions unwrapPanicConfig = .panicked :=
  ⟨rfl, rfl⟩

/-- C10 as amended: when the URL parse succeeds with a nonempty host in
the parsed URL, `set_username` and `set_password` succeed, so the two
`.unwrap()` calls do not panic. -/
theorem unwrap_no_panic (c : DatabaseConfig) (url : Url)
    (hp : parseMysqlUrl c.get_address = .ok url) (hh : url.host ≠ "") :
    buildConnectOptions c ≠ .panicked := by
  have hs : url.scheme = "mysql" := parseMysqlUrl_ok_scheme hp
  have hcond : ¬(url.host = "" ∨ url.scheme = "file") := by
    rintro (h | h)
    · exact hh h
    · rw [hs] at h
      exact absurd h (by decide)
  simp only [buildConnectOptions, hp, Url.set_username, Url.set_password]
  rw [if_neg hcond]
  dsimp only
  rw [if_neg hcond]
  simp

/-- Witness for the amended C10 at a concrete configuration with a
nonempty host. -/
theorem unwrap_no_panic_witness :
    parseMysqlUrl unwrapSafeConfig.get_address =
        .ok ⟨"mysql", "", none, "db.internal", some 3307, "", none, none⟩ ∧
      buildConnectOptions unwrapSafeConfig ≠ .panicked :=
  ⟨rfl, unwrap_no_panic unwrapSafeConfig
    ⟨"mysql", "", none, "db.internal", some 3307, "", none, none⟩ rfl
    (by decide)⟩

end SeaormPool
